import Mathlib

/-!
Shallow embedding of `scripts/finance/check_finance_env.py` (the Validator
of the finance environment checker) and proofs about it.

Modelling conventions:
* the effective configuration map (`dict[str, str]`) is an association list
  `Env`; `dict.get(key, "")` becomes `envGet`;
* Python `str | None` becomes `Option String`;
* the only exception reachable inside `run_checks` is the `ValueError`
  that `urllib.parse.urlsplit` raises for an authority with unbalanced
  square brackets; exceptions are therefore modelled with
  `Except String`, the error value carrying the exception message;
* Python string helpers (`strip`, `lower`, `int(...)`) are modelled on the
  character lists underlying Lean strings.  `lower` is modelled on ASCII
  letters only (mode keywords and URL schemes, the only strings the script
  compares after lowering, cannot be made equal to an ASCII keyword by
  lowering a non-ASCII character); `int(...)` is modelled with ASCII
  digits and Python's underscore grouping rule, omitting non-ASCII
  decimal digits.
-/

/-- Characters stripped by Python `str.strip()` with no argument:
the characters for which `str.isspace()` holds (Unicode whitespace). -/
def isPySpace (c : Char) : Bool :=
  c == ' ' || c == '\t' || c == '\n' || c == '\r' || c == '\x0b' || c == '\x0c' ||
  c == '\x1c' || c == '\x1d' || c == '\x1e' || c == '\x1f' || c == '\x85' || c == '\xa0' ||
  c == '\u1680' || (decide (0x2000 ≤ c.val) && decide (c.val ≤ 0x200a)) ||
  c == '\u2028' || c == '\u2029' || c == '\u202f' || c == '\u205f' || c == '\u3000'

/-- Python `str.strip()`: remove leading and trailing whitespace. -/
def pyStrip (s : String) : String :=
  ⟨((s.data.dropWhile isPySpace).reverse.dropWhile isPySpace).reverse⟩

/-- Python `str.lower()` on the ASCII range (see the header comment). -/
def pyLower (s : String) : String := ⟨s.data.map Char.toLower⟩

/-- Python truthiness of an optional string: `None` and `""` are falsy. -/
def truthy : Option String → Bool
  | none => false
  | some s => s != ""

/-- Python `x or d` for `x : str | None` (source lines 81-82). -/
def pyOr (x : Option String) (d : String) : String :=
  match x with
  | none => d
  | some s => if s == "" then d else s

/-- Tail of the digit grammar of a Python `int` literal body: an
underscore must be followed by a digit, every other character must be a
digit. -/
def pyDigitsRest : List Char → Bool
  | [] => true
  | '_' :: c :: rest => c.isDigit && pyDigitsRest rest
  | c :: rest => c.isDigit && pyDigitsRest rest

/-- Whole digit part of a Python `int` literal body: non-empty, starts
with a digit, underscores only between digits. -/
def pyDigitsOk : List Char → Bool
  | [] => false
  | c :: rest => c.isDigit && pyDigitsRest rest

/-- Numeric value of a list of ASCII digits. -/
def digitsVal (cs : List Char) : Nat :=
  cs.foldl (fun acc c => 10 * acc + (c.toNat - 48)) 0

/-- Parses the digit part of a Python `int` literal (underscores
removed). -/
def pyIntDigits (cs : List Char) : Option Nat :=
  if pyDigitsOk cs then some (digitsVal (cs.filter (fun c => c != '_'))) else none

/-- Python `int(s)` on an already stripped string: optional sign, then
digits with underscore grouping; `none` models the `ValueError` that
`parse_int` catches. -/
def pyInt (s : String) : Option Int :=
  match s.data with
  | '+' :: rest => (pyIntDigits rest).map (fun n => (n : Int))
  | '-' :: rest => (pyIntDigits rest).map (fun n => -(n : Int))
  | cs => (pyIntDigits cs).map (fun n => (n : Int))

/-- `parse_int` (source lines 56-62): `int(raw.strip())` with every
exception turned into the default. -/
def parse_int (raw : Option String) (default : Int) : Int :=
  match raw with
  | none => default
  | some r => (pyInt (pyStrip r)).getD default

/-- `parse_bool` (source lines 45-53). -/
def parse_bool (raw : Option String) (default : Bool) : Bool :=
  match raw with
  | none => default
  | some r =>
    let normalized := pyLower (pyStrip r)
    if normalized == "1" || normalized == "true" || normalized == "yes" || normalized == "on" then
      true
    else if normalized == "0" || normalized == "false" || normalized == "no" || normalized == "off" then
      false
    else default

/-- Characters allowed in a URL scheme (urllib `scheme_chars`). -/
def scheme_char (c : Char) : Bool :=
  c.isAlpha || c.isDigit || c == '+' || c == '-' || c == '.'

/-- Scheme splitting of CPython `urllib.parse.urlsplit`: the text before
the first colon is a scheme when the colon is not first, the first
character is an ASCII letter and every character before the colon is a
scheme character; the scheme is lowercased. -/
def split_scheme (url : List Char) : String × List Char :=
  match url.findIdx? (fun c => c == ':') with
  | some i =>
    if decide (0 < i) && (url.headD ' ').isAlpha && (url.take i).all scheme_char then
      (pyLower ⟨url.take i⟩, url.drop (i + 1))
    else ("", url)
  | none => ("", url)

/-- Delimiters ending the authority in `_splitnetloc`. -/
def netloc_delim (c : Char) : Bool := c == '/' || c == '?' || c == '#'

/-- `_splitnetloc(url, 2)`: the authority runs from position 2 to the
first `/`, `?` or `#`. -/
def split_netloc (url : List Char) : List Char :=
  (url.drop 2).takeWhile (fun c => !netloc_delim c)

/-- Scheme and netloc of CPython `urllib.parse.urlsplit` (the only two
components `valid_url` reads).  Leading C0-control/space characters are
stripped and tab, CR and LF are removed, as in CPython 3.10+; a netloc
with an unbalanced square bracket raises `ValueError("Invalid IPv6 URL")`,
modelled as `Except.error`.  `_checknetloc` is omitted: it returns
immediately for every ASCII netloc and its non-ASCII NFKC check is out of
scope of this model. -/
def urlsplit_sn (raw : String) : Except String (String × String) :=
  let url := (raw.data.dropWhile (fun c => decide (c.val ≤ 0x20))).filter
      (fun c => !(c == '\t' || c == '\r' || c == '\n'))
  let p := split_scheme url
  if p.2.take 2 == ['/', '/'] then
    let netloc := split_netloc p.2
    if (netloc.contains '[' && !netloc.contains ']') ||
       (netloc.contains ']' && !netloc.contains '[') then
      Except.error "Invalid IPv6 URL"
    else
      Except.ok (p.1, ⟨netloc⟩)
  else
    Except.ok (p.1, "")

/-- `valid_url` (source lines 65-67): `bool(parsed.scheme and
parsed.netloc)`; the `ValueError` that `urlparse` can raise passes
through uncaught. -/
def valid_url (raw : String) : Except String Bool :=
  match urlsplit_sn raw with
  | Except.error e => Except.error e
  | Except.ok p => Except.ok (decide (p.1 ≠ "") && decide (p.2 ≠ ""))

/-- The effective configuration map. -/
abbrev Env := List (String × String)

/-- Python `env.get(key, "")` over the configuration map. -/
def envGet (env : Env) (k : String) : String := (List.lookup k env).getD ""

/-- `pick` (source lines 37-42): first alias whose stripped value is
non-empty wins, otherwise the caller-supplied default. -/
def pick (env : Env) (keys : List String) (default : Option String) : Option String :=
  match keys with
  | [] => default
  | k :: rest =>
    if pyStrip (envGet env k) != "" then some (pyStrip (envGet env k))
    else pick env rest default

/-- `CheckResult` (source lines 70-74). -/
structure CheckResult where
  name : String
  ok : Bool
  detail : String
deriving DecidableEq, Repr

/-- Error text of source line 85. -/
def invalid_expert_mode_err (m : String) : String :=
  "Invalid expert mode: " ++ m ++ " (expected stub/live)"

/-- Error text of source line 87. -/
def invalid_info_mode_err (m : String) : String :=
  "Invalid info mode: " ++ m ++ " (expected stub/live)"

/-- Error text of source line 101. -/
def expert_live_err : String :=
  "Expert live mode requires FIN_EXPERT_SDK_API_KEY and FIN_EXPERT_SDK_ENDPOINT (valid URL)"

/-- Error text of source line 109. -/
def info_live_err : String :=
  "Info live mode requires FIN_INFO_FEED_API_KEY and FIN_INFO_FEED_ENDPOINT (valid URL)"

/-- Error text of source line 136. -/
def monitoring_err : String := "Monitoring poll interval must be >= 10000 ms"

/-- Membership test `mode in {"stub", "live"}` (source lines 84-90). -/
def mode_ok (m : String) : Bool := m == "stub" || m == "live"

/-- Resolution of the expert mode (source line 81). -/
def expert_mode_of (env : Env) : String :=
  pyLower (pyOr (pick env ["OPENFINCLAW_FIN_EXPERT_MODE", "FIN_EXPERT_SDK_MODE"] (some "stub")) "stub")

/-- Resolution of the info mode (source line 82). -/
def info_mode_of (env : Env) : String :=
  pyLower (pyOr (pick env ["OPENFINCLAW_FIN_INFO_MODE", "FIN_INFO_FEED_MODE"] (some "stub")) "stub")

/-- Resolution of the expert API key (source line 92). -/
def expert_key_of (env : Env) : Option String :=
  pick env ["OPENFINCLAW_FIN_EXPERT_API_KEY", "FIN_EXPERT_SDK_API_KEY"] none

/-- Resolution of the expert endpoint (source line 93). -/
def expert_endpoint_of (env : Env) : Option String :=
  pick env ["OPENFINCLAW_FIN_EXPERT_ENDPOINT", "FIN_EXPERT_SDK_ENDPOINT"] none

/-- Resolution of the info API key (source line 94). -/
def info_key_of (env : Env) : Option String :=
  pick env ["OPENFINCLAW_FIN_INFO_API_KEY", "FIN_INFO_FEED_API_KEY"] none

/-- Resolution of the info endpoint (source line 95). -/
def info_endpoint_of (env : Env) : Option String :=
  pick env ["OPENFINCLAW_FIN_INFO_ENDPOINT", "FIN_INFO_FEED_ENDPOINT"] none

/-- Resolution of the monitoring auto-evaluate flag (source lines
113-119). -/
def monitoring_enabled_of (env : Env) : Bool :=
  parse_bool (pick env ["OPENFINCLAW_FIN_MONITORING_AUTO_EVALUATE", "FIN_MONITORING_AUTO_EVALUATE"] none) true

/-- Resolution of the monitoring poll interval (source lines 120-126). -/
def monitoring_poll_of (env : Env) : Int :=
  parse_int (pick env ["OPENFINCLAW_FIN_MONITORING_POLL_INTERVAL_MS", "FIN_MONITORING_POLL_INTERVAL_MS"] none) 300000

/-- One live-credentials block (source lines 97-111; the expert block and
the info block differ only in the values and strings passed in, so both
are instances of this definition).  `bool(key) and bool(endpoint) and
valid_url(endpoint)` short-circuits, so `valid_url` runs (and can raise)
only when key and endpoint are both truthy. -/
def cred_step (mode : String) (key endpoint : Option String) (cname errMsg : String) :
    Except String (CheckResult × List String) :=
  if mode == "live" then
    match (if truthy key && truthy endpoint then valid_url (endpoint.getD "")
           else Except.ok false) with
    | Except.error e => Except.error e
    | Except.ok ok =>
      Except.ok (⟨cname, ok, "apiKey+endpoint required in live mode"⟩,
        if ok then [] else [errMsg])
  else
    Except.ok (⟨cname, true, "stub mode"⟩, [])

/-- `run_checks` (source lines 77-138).  The source appends the two mode
errors before appending the two mode results; only the final contents of
the two lists matter, reproduced here exactly: results in check order and
errors in the order mode errors, expert-credentials error,
info-credentials error, monitoring error. -/
def run_checks (env : Env) : Except String (List CheckResult × List String) :=
  match cred_step (expert_mode_of env) (expert_key_of env) (expert_endpoint_of env)
      "expert.live_credentials" expert_live_err with
  | Except.error e => Except.error e
  | Except.ok (r3, errs3) =>
    match cred_step (info_mode_of env) (info_key_of env) (info_endpoint_of env)
        "info.live_credentials" info_live_err with
    | Except.error e => Except.error e
    | Except.ok (r4, errs4) =>
      Except.ok
        ([⟨"expert.mode", mode_ok (expert_mode_of env), expert_mode_of env⟩,
          ⟨"info.mode", mode_ok (info_mode_of env), info_mode_of env⟩,
          r3, r4,
          ⟨"monitoring.poll_interval_ms", decide ((10000 : Int) ≤ monitoring_poll_of env),
            toString (monitoring_poll_of env) ++ " (autoEvaluate=" ++
              (if monitoring_enabled_of env then "true" else "false") ++ ")"⟩],
          ((if mode_ok (expert_mode_of env) then []
            else [invalid_expert_mode_err (expert_mode_of env)]) ++
           (if mode_ok (info_mode_of env) then []
            else [invalid_info_mode_err (info_mode_of env)])) ++
          errs3 ++ errs4 ++
          (if decide ((10000 : Int) ≤ monitoring_poll_of env) then [] else [monitoring_err]))

/-- Placeholder result used with `List.getD` in theorem statements. -/
def dflt : CheckResult := ⟨"", false, ""⟩

/-- The error message every failing check appends, as a function of the
recorded result (the two mode errors embed the recorded detail, the other
three are fixed strings). -/
def err_for (r : CheckResult) : String :=
  if r.name == "expert.mode" then invalid_expert_mode_err r.detail
  else if r.name == "info.mode" then invalid_info_mode_err r.detail
  else if r.name == "expert.live_credentials" then expert_live_err
  else if r.name == "info.live_credentials" then info_live_err
  else monitoring_err

/-- Alias lookup as the spec words it: the first alias whose trimmed
value is non-empty wins, otherwise the default (stated with `find?` to be
compared against the recursive `pick` of the source). -/
def pick_spec (env : Env) (keys : List String) (default : Option String) : Option String :=
  match (keys.map (fun k => pyStrip (envGet env k))).find? (fun v => v != "") with
  | some v => some v
  | none => default

theorem data_append_eq (a b : String) : (a ++ b).data = a.data ++ b.data := rfl

/-- A mode error can never collide with the expert credentials error:
their texts differ at the first character, whatever mode value is
embedded. -/
theorem invalid_expert_ne_expert_live (m : String) :
    invalid_expert_mode_err m ≠ expert_live_err := by
  intro h
  have hd := congrArg String.data h
  simp only [invalid_expert_mode_err, expert_live_err, data_append_eq] at hd
  simp only [List.cons_append] at hd
  injection hd with h1 _
  exact absurd h1 (by decide)

/-- A mode error can never collide with the info credentials error:
the texts differ at the third character. -/
theorem invalid_expert_ne_info_live (m : String) :
    invalid_expert_mode_err m ≠ info_live_err := by
  intro h
  have hd := congrArg String.data h
  simp only [invalid_expert_mode_err, info_live_err, data_append_eq] at hd
  simp only [List.cons_append] at hd
  injection hd with _ hd
  injection hd with _ hd
  injection hd with h3 _
  exact absurd h3 (by decide)

/-- Same argument for the info mode error and the expert credentials
error. -/
theorem invalid_info_ne_expert_live (m : String) :
    invalid_info_mode_err m ≠ expert_live_err := by
  intro h
  have hd := congrArg String.data h
  simp only [invalid_info_mode_err, expert_live_err, data_append_eq] at hd
  simp only [List.cons_append] at hd
  injection hd with h1 _
  exact absurd h1 (by decide)

/-- Same argument for the info mode error and the info credentials
error. -/
theorem invalid_info_ne_info_live (m : String) :
    invalid_info_mode_err m ≠ info_live_err := by
  intro h
  have hd := congrArg String.data h
  simp only [invalid_info_mode_err, info_live_err, data_append_eq] at hd
  simp only [List.cons_append] at hd
  injection hd with _ hd
  injection hd with _ hd
  injection hd with h3 _
  exact absurd h3 (by decide)

/-- Full characterisation of a live-credentials block that returned
normally. -/
theorem cred_step_spec (mode : String) (key endpoint : Option String) (cname errMsg : String)
    (r : CheckResult) (es : List String)
    (h : cred_step mode key endpoint cname errMsg = Except.ok (r, es)) :
    r.name = cname ∧
    (r.ok = true → es = []) ∧
    (r.ok = false → es = [errMsg]) ∧
    (mode ≠ "live" → r.ok = true ∧ r.detail = "stub mode") ∧
    (mode = "live" →
      r.detail = "apiKey+endpoint required in live mode" ∧
      (r.ok = true ↔ truthy key = true ∧ truthy endpoint = true ∧
        valid_url (endpoint.getD "") = Except.ok true)) := by
  unfold cred_step at h
  by_cases hm : mode = "live"
  · rw [if_pos (by simp [hm])] at h
    by_cases hc : truthy key && truthy endpoint
    · rw [if_pos hc] at h
      cases hv : valid_url (endpoint.getD "") with
      | error e => rw [hv] at h; exact absurd h (by simp)
      | ok okv =>
        rw [hv] at h
        simp only [Except.ok.injEq, Prod.mk.injEq] at h
        obtain ⟨hr, hes⟩ := h
        subst hr
        subst hes
        refine ⟨rfl, ?_, ?_, fun hmm => absurd hm hmm, fun _ => ⟨rfl, ?_⟩⟩
        · intro hok
          have hb : okv = true := hok
          simp [hb]
        · intro hok
          have hb : okv = false := hok
          simp [hb]
        · simp only [Bool.and_eq_true] at hc
          constructor
          · intro hok
            have hb : okv = true := hok
            exact ⟨hc.1, hc.2, by rw [hb]⟩
          · intro ⟨_, _, hvu⟩
            have hb : okv = true := by simpa using hvu
            exact hb
    · rw [if_neg hc] at h
      simp only [Except.ok.injEq, Prod.mk.injEq] at h
      obtain ⟨hr, hes⟩ := h
      subst hr
      subst hes
      refine ⟨rfl, ?_, ?_, fun hmm => absurd hm hmm, fun _ => ⟨rfl, ?_⟩⟩
      · intro hok; simp at hok
      · intro _; simp
      · simp only [Bool.and_eq_true] at hc
        constructor
        · intro hok; simp at hok
        · intro ⟨h1, h2, _⟩; exact absurd ⟨h1, h2⟩ hc
  · rw [if_neg (by simp [hm])] at h
    simp only [Except.ok.injEq, Prod.mk.injEq] at h
    obtain ⟨hr, hes⟩ := h
    subst hr
    subst hes
    exact ⟨rfl, fun _ => rfl, fun hok => by simp at hok, fun _ => ⟨rfl, rfl⟩,
      fun hmm => absurd hmm hm⟩

/-- Normal-return shape of `run_checks`: the two credential blocks
returned normally, the result list is the five checks in order and the
error list is the concatenation of the per-check error contributions. -/
theorem run_checks_shape (env : Env) (res : List CheckResult) (errs : List String)
    (h : run_checks env = Except.ok (res, errs)) :
    ∃ r3 e3 r4 e4,
      cred_step (expert_mode_of env) (expert_key_of env) (expert_endpoint_of env)
          "expert.live_credentials" expert_live_err = Except.ok (r3, e3) ∧
      cred_step (info_mode_of env) (info_key_of env) (info_endpoint_of env)
          "info.live_credentials" info_live_err = Except.ok (r4, e4) ∧
      res = [⟨"expert.mode", mode_ok (expert_mode_of env), expert_mode_of env⟩,
             ⟨"info.mode", mode_ok (info_mode_of env), info_mode_of env⟩,
             r3, r4,
             ⟨"monitoring.poll_interval_ms", decide ((10000 : Int) ≤ monitoring_poll_of env),
               toString (monitoring_poll_of env) ++ " (autoEvaluate=" ++
                 (if monitoring_enabled_of env then "true" else "false") ++ ")"⟩] ∧
      errs = ((if mode_ok (expert_mode_of env) then []
               else [invalid_expert_mode_err (expert_mode_of env)]) ++
              (if mode_ok (info_mode_of env) then []
               else [invalid_info_mode_err (info_mode_of env)])) ++
             e3 ++ e4 ++
             (if decide ((10000 : Int) ≤ monitoring_poll_of env) then [] else [monitoring_err]) := by
  unfold run_checks at h
  cases h3 : cred_step (expert_mode_of env) (expert_key_of env) (expert_endpoint_of env)
      "expert.live_credentials" expert_live_err with
  | error e => rw [h3] at h; exact absurd h (by simp)
  | ok v3 =>
    obtain ⟨r3, e3⟩ := v3
    rw [h3] at h
    cases h4 : cred_step (info_mode_of env) (info_key_of env) (info_endpoint_of env)
        "info.live_credentials" info_live_err with
    | error e => rw [h4] at h; exact absurd h (by simp)
    | ok v4 =>
      obtain ⟨r4, e4⟩ := v4
      rw [h4] at h
      simp only [Except.ok.injEq, Prod.mk.injEq] at h
      exact ⟨r3, e3, r4, e4, rfl, rfl, h.1.symm, h.2.symm⟩

/-- C8: on the empty configuration map both modes resolve to "stub", both
credential checks pass in stub mode, the monitoring interval resolves to
300000 with auto-evaluate true, every result is ok and the error list is
empty. -/
theorem c8_empty_env_defaults :
    run_checks [] = Except.ok
      ([⟨"expert.mode", true, "stub"⟩,
        ⟨"info.mode", true, "stub"⟩,
        ⟨"expert.live_credentials", true, "stub mode"⟩,
        ⟨"info.live_credentials", true, "stub mode"⟩,
        ⟨"monitoring.poll_interval_ms", true, "300000 (autoEvaluate=true)"⟩], []) ∧
    expert_mode_of [] = "stub" ∧ info_mode_of [] = "stub" ∧
    monitoring_poll_of [] = 300000 ∧ monitoring_enabled_of [] = true :=
  ⟨rfl, rfl, rfl, rfl, rfl⟩

/-- C4: the code, not the claim, is at fault here: an input map putting a
live mode together with an endpoint whose authority has an unbalanced
square bracket makes `urlparse` raise `ValueError("Invalid IPv6 URL")`
inside `valid_url`, and `run_checks` has no handler, so the exception
escapes instead of being recorded as a check failure. -/
theorem c4_exception_escapes :
    run_checks [("FIN_INFO_FEED_MODE", "live"), ("FIN_INFO_FEED_API_KEY", "k"),
      ("FIN_INFO_FEED_ENDPOINT", "http://]")] = Except.error "Invalid IPv6 URL" := rfl

/-- C1 counterexample: on this input map `run_checks` does not return a
result list at all, it propagates `ValueError("Invalid IPv6 URL")`, so
the unconditional five-results claim fails. -/
theorem c1_claim_fails_on_ipv6_endpoint :
    run_checks [("OPENFINCLAW_FIN_EXPERT_MODE", "live"),
      ("OPENFINCLAW_FIN_EXPERT_API_KEY", "k"),
      ("OPENFINCLAW_FIN_EXPERT_ENDPOINT", "http://[")] = Except.error "Invalid IPv6 URL" := rfl

/-- C1 (amended): whenever `run_checks` returns normally it returns
exactly five results, named in the fixed order expert.mode, info.mode,
expert.live_credentials, info.live_credentials,
monitoring.poll_interval_ms. -/
theorem c1_results_shape (env : Env) (res : List CheckResult) (errs : List String)
    (h : run_checks env = Except.ok (res, errs)) :
    res.map (fun r => r.name) =
      ["expert.mode", "info.mode", "expert.live_credentials",
       "info.live_credentials", "monitoring.poll_interval_ms"] := by
  obtain ⟨r3, e3, r4, e4, h3, h4, hres, herrs⟩ := run_checks_shape env res errs h
  have n3 := (cred_step_spec _ _ _ _ _ _ _ h3).1
  have n4 := (cred_step_spec _ _ _ _ _ _ _ h4).1
  subst hres
  simp [n3, n4]

/-- C1 witness at the empty map. -/
theorem c1_witness :
    ([⟨"expert.mode", true, "stub"⟩,
      ⟨"info.mode", true, "stub"⟩,
      ⟨"expert.live_credentials", true, "stub mode"⟩,
      ⟨"info.live_credentials", true, "stub mode"⟩,
      ⟨"monitoring.poll_interval_ms", true, "300000 (autoEvaluate=true)"⟩] : List CheckResult).map
        (fun r => r.name) =
      ["expert.mode", "info.mode", "expert.live_credentials",
       "info.live_credentials", "monitoring.poll_interval_ms"] :=
  c1_results_shape [] _ [] rfl

/-- C2: whenever `run_checks` returns normally, the returned error list
is empty exactly when every returned result is ok. -/
theorem c2_errors_empty_iff_all_ok (env : Env) (res : List CheckResult) (errs : List String)
    (h : run_checks env = Except.ok (res, errs)) :
    errs = [] ↔ ∀ r ∈ res, r.ok = true := by
  obtain ⟨r3, e3, r4, e4, h3, h4, hres, herrs⟩ := run_checks_shape env res errs h
  obtain ⟨n3, e3t, e3f, _, _⟩ := cred_step_spec _ _ _ _ _ _ _ h3
  obtain ⟨n4, e4t, e4f, _, _⟩ := cred_step_spec _ _ _ _ _ _ _ h4
  have he3 : e3 = if r3.ok = true then [] else [expert_live_err] := by
    cases hb : r3.ok
    · simp [e3f hb]
    · simp [e3t hb]
  have he4 : e4 = if r4.ok = true then [] else [info_live_err] := by
    cases hb : r4.ok
    · simp [e4f hb]
    · simp [e4t hb]
  subst hres herrs
  rw [he3, he4]
  clear h h3 h4 he3 he4 e3t e3f e4t e4f n3 n4
  cases hm1 : mode_ok (expert_mode_of env) <;>
    cases hm2 : mode_ok (info_mode_of env) <;>
      cases hb3 : r3.ok <;>
        cases hb4 : r4.ok <;>
          cases hmon : decide ((10000 : Int) ≤ monitoring_poll_of env) <;>
            simp [hm1, hm2, hb3, hb4, hmon]

/-- C2 witness at the empty map. -/
theorem c2_witness :
    run_checks [] = Except.ok
      ([⟨"expert.mode", true, "stub"⟩,
        ⟨"info.mode", true, "stub"⟩,
        ⟨"expert.live_credentials", true, "stub mode"⟩,
        ⟨"info.live_credentials", true, "stub mode"⟩,
        ⟨"monitoring.poll_interval_ms", true, "300000 (autoEvaluate=true)"⟩], []) ∧
    (([] : List String) = [] ↔
      ∀ r ∈ ([⟨"expert.mode", true, "stub"⟩,
        ⟨"info.mode", true, "stub"⟩,
        ⟨"expert.live_credentials", true, "stub mode"⟩,
        ⟨"info.live_credentials", true, "stub mode"⟩,
        ⟨"monitoring.poll_interval_ms", true, "300000 (autoEvaluate=true)"⟩] : List CheckResult),
        r.ok = true) :=
  ⟨rfl, c2_errors_empty_iff_all_ok [] _ [] rfl⟩

/-- C7: whenever `run_checks` returns normally and a resolved mode is
outside stub/live, the matching mode result is recorded not-ok with the
literal value as detail, and the matching invalid-mode error with that
value substituted is in the error list. -/
theorem c7_invalid_mode_spec (env : Env) (res : List CheckResult) (errs : List String)
    (h : run_checks env = Except.ok (res, errs)) :
    (mode_ok (expert_mode_of env) = false →
      res.getD 0 dflt = ⟨"expert.mode", false, expert_mode_of env⟩ ∧
      invalid_expert_mode_err (expert_mode_of env) ∈ errs) ∧
    (mode_ok (info_mode_of env) = false →
      res.getD 1 dflt = ⟨"info.mode", false, info_mode_of env⟩ ∧
      invalid_info_mode_err (info_mode_of env) ∈ errs) := by
  obtain ⟨r3, e3, r4, e4, h3, h4, hres, herrs⟩ := run_checks_shape env res errs h
  subst hres herrs
  constructor
  · intro hm1
    exact ⟨by simp [List.getD, hm1], by simp [hm1, List.mem_append]⟩
  · intro hm2
    exact ⟨by simp [List.getD, hm2], by simp [hm2, List.mem_append]⟩

/-- C7 witness at a map with both modes set to "production". -/
theorem c7_witness :
    run_checks [("OPENFINCLAW_FIN_EXPERT_MODE", "production"),
      ("OPENFINCLAW_FIN_INFO_MODE", "production")] = Except.ok
      ([⟨"expert.mode", false, "production"⟩,
        ⟨"info.mode", false, "production"⟩,
        ⟨"expert.live_credentials", true, "stub mode"⟩,
        ⟨"info.live_credentials", true, "stub mode"⟩,
        ⟨"monitoring.poll_interval_ms", true, "300000 (autoEvaluate=true)"⟩],
       ["Invalid expert mode: production (expected stub/live)",
        "Invalid info mode: production (expected stub/live)"]) ∧
    ((mode_ok (expert_mode_of [("OPENFINCLAW_FIN_EXPERT_MODE", "production"),
        ("OPENFINCLAW_FIN_INFO_MODE", "production")]) = false →
      ([⟨"expert.mode", false, "production"⟩,
        ⟨"info.mode", false, "production"⟩,
        ⟨"expert.live_credentials", true, "stub mode"⟩,
        ⟨"info.live_credentials", true, "stub mode"⟩,
        ⟨"monitoring.poll_interval_ms", true, "300000 (autoEvaluate=true)"⟩] : List CheckResult).getD 0 dflt =
        ⟨"expert.mode", false, expert_mode_of [("OPENFINCLAW_FIN_EXPERT_MODE", "production"),
          ("OPENFINCLAW_FIN_INFO_MODE", "production")]⟩ ∧
      invalid_expert_mode_err (expert_mode_of [("OPENFINCLAW_FIN_EXPERT_MODE", "production"),
        ("OPENFINCLAW_FIN_INFO_MODE", "production")]) ∈
        ["Invalid expert mode: production (expected stub/live)",
         "Invalid info mode: production (expected stub/live)"]) ∧
     (mode_ok (info_mode_of [("OPENFINCLAW_FIN_EXPERT_MODE", "production"),
        ("OPENFINCLAW_FIN_INFO_MODE", "production")]) = false →
      ([⟨"expert.mode", false, "production"⟩,
        ⟨"info.mode", false, "production"⟩,
        ⟨"expert.live_credentials", true, "stub mode"⟩,
        ⟨"info.live_credentials", true, "stub mode"⟩,
        ⟨"monitoring.poll_interval_ms", true, "300000 (autoEvaluate=true)"⟩] : List CheckResult).getD 1 dflt =
        ⟨"info.mode", false, info_mode_of [("OPENFINCLAW_FIN_EXPERT_MODE", "production"),
          ("OPENFINCLAW_FIN_INFO_MODE", "production")]⟩ ∧
      invalid_info_mode_err (info_mode_of [("OPENFINCLAW_FIN_EXPERT_MODE", "production"),
        ("OPENFINCLAW_FIN_INFO_MODE", "production")]) ∈
        ["Invalid expert mode: production (expected stub/live)",
         "Invalid info mode: production (expected stub/live)"])) :=
  ⟨rfl, c7_invalid_mode_spec _ _ _ rfl⟩

/-- C10: whenever `run_checks` returns normally, the error list is
exactly the failing results, in result order, each mapped to its error
message; in particular there is exactly one error per failing check. -/
theorem c10_errors_match_failing_checks (env : Env) (res : List CheckResult) (errs : List String)
    (h : run_checks env = Except.ok (res, errs)) :
    errs = (res.filter (fun r => !r.ok)).map err_for := by
  obtain ⟨r3, e3, r4, e4, h3, h4, hres, herrs⟩ := run_checks_shape env res errs h
  obtain ⟨n3, e3t, e3f, _, _⟩ := cred_step_spec _ _ _ _ _ _ _ h3
  obtain ⟨n4, e4t, e4f, _, _⟩ := cred_step_spec _ _ _ _ _ _ _ h4
  have he3 : e3 = if r3.ok = true then [] else [expert_live_err] := by
    cases hb : r3.ok
    · simp [e3f hb]
    · simp [e3t hb]
  have he4 : e4 = if r4.ok = true then [] else [info_live_err] := by
    cases hb : r4.ok
    · simp [e4f hb]
    · simp [e4t hb]
  subst hres herrs
  rw [he3, he4]
  have ne1 : ("expert.live_credentials" : String) ≠ "expert.mode" := by decide
  have ne2 : ("expert.live_credentials" : String) ≠ "info.mode" := by decide
  have ne3 : ("info.live_credentials" : String) ≠ "expert.mode" := by decide
  have ne4 : ("info.live_credentials" : String) ≠ "info.mode" := by decide
  have ne5 : ("info.live_credentials" : String) ≠ "expert.live_credentials" := by decide
  have ne6 : ("monitoring.poll_interval_ms" : String) ≠ "expert.mode" := by decide
  have ne7 : ("monitoring.poll_interval_ms" : String) ≠ "info.mode" := by decide
  have ne8 : ("monitoring.poll_interval_ms" : String) ≠ "expert.live_credentials" := by decide
  have ne9 : ("monitoring.poll_interval_ms" : String) ≠ "info.live_credentials" := by decide
  clear h h3 h4 he3 he4 e3t e3f e4t e4f
  cases hm1 : mode_ok (expert_mode_of env) <;>
    cases hm2 : mode_ok (info_mode_of env) <;>
      cases hb3 : r3.ok <;>
        cases hb4 : r4.ok <;>
          cases hmon : decide ((10000 : Int) ≤ monitoring_poll_of env) <;>
            simp [err_for, n3, n4, ne1, ne2, ne3, ne4, ne5, ne6, ne7, ne8, ne9,
              hm1, hm2, hb3, hb4, hmon]

/-- C10 witness at a map with a failing monitoring check. -/
theorem c10_witness :
    run_checks [("FIN_MONITORING_POLL_INTERVAL_MS", "9999")] = Except.ok
      ([⟨"expert.mode", true, "stub"⟩,
        ⟨"info.mode", true, "stub"⟩,
        ⟨"expert.live_credentials", true, "stub mode"⟩,
        ⟨"info.live_credentials", true, "stub mode"⟩,
        ⟨"monitoring.poll_interval_ms", false, "9999 (autoEvaluate=true)"⟩],
       [monitoring_err]) ∧
    [monitoring_err] =
      (([⟨"expert.mode", true, "stub"⟩,
        ⟨"info.mode", true, "stub"⟩,
        ⟨"expert.live_credentials", true, "stub mode"⟩,
        ⟨"info.live_credentials", true, "stub mode"⟩,
        ⟨"monitoring.poll_interval_ms", false, "9999 (autoEvaluate=true)"⟩] : List CheckResult).filter
          (fun r => !r.ok)).map err_for :=
  ⟨rfl, c10_errors_match_failing_checks [("FIN_MONITORING_POLL_INTERVAL_MS", "9999")] _ _ rfl⟩

/-- C5: whenever `run_checks` returns normally, the monitoring result is
ok exactly when the resolved interval is at least 10000, and a failing
monitoring check puts exactly the monitoring error text in the error
list; resolution defaults the interval to 300000 when the aliases are
absent or the value does not parse as an integer, an unparsable value
producing no error by itself; 9999 fails and 10000 passes. -/
theorem c5_monitoring_spec :
    (∀ env res errs, run_checks env = Except.ok (res, errs) →
      ((res.getD 4 dflt).ok = true ↔ (10000 : Int) ≤ monitoring_poll_of env) ∧
      ((res.getD 4 dflt).ok = false → monitoring_err ∈ errs)) ∧
    (∀ d, parse_int none d = d) ∧
    (∀ s d, pyInt (pyStrip s) = none → parse_int (some s) d = d) ∧
    monitoring_poll_of [("FIN_MONITORING_POLL_INTERVAL_MS", "abc")] = 300000 ∧
    run_checks [("FIN_MONITORING_POLL_INTERVAL_MS", "abc")] = Except.ok
      ([⟨"expert.mode", true, "stub"⟩,
        ⟨"info.mode", true, "stub"⟩,
        ⟨"expert.live_credentials", true, "stub mode"⟩,
        ⟨"info.live_credentials", true, "stub mode"⟩,
        ⟨"monitoring.poll_interval_ms", true, "300000 (autoEvaluate=true)"⟩], []) ∧
    run_checks [("FIN_MONITORING_POLL_INTERVAL_MS", "9999")] = Except.ok
      ([⟨"expert.mode", true, "stub"⟩,
        ⟨"info.mode", true, "stub"⟩,
        ⟨"expert.live_credentials", true, "stub mode"⟩,
        ⟨"info.live_credentials", true, "stub mode"⟩,
        ⟨"monitoring.poll_interval_ms", false, "9999 (autoEvaluate=true)"⟩],
       [monitoring_err]) ∧
    run_checks [("FIN_MONITORING_POLL_INTERVAL_MS", "10000")] = Except.ok
      ([⟨"expert.mode", true, "stub"⟩,
        ⟨"info.mode", true, "stub"⟩,
        ⟨"expert.live_credentials", true, "stub mode"⟩,
        ⟨"info.live_credentials", true, "stub mode"⟩,
        ⟨"monitoring.poll_interval_ms", true, "10000 (autoEvaluate=true)"⟩], []) := by
  refine ⟨?_, fun d => rfl, fun s d hs => ?_, rfl, rfl, rfl, rfl⟩
  · intro env res errs h
    obtain ⟨r3, e3, r4, e4, h3, h4, hres, herrs⟩ := run_checks_shape env res errs h
    subst hres herrs
    constructor
    · show decide ((10000 : Int) ≤ monitoring_poll_of env) = true ↔ _
      simp [decide_eq_true_eq]
    · intro hok
      have hd : decide ((10000 : Int) ≤ monitoring_poll_of env) = false := hok
      simp [hd, List.mem_append]
  · show (pyInt (pyStrip s)).getD d = d
    rw [hs]
    rfl

/-- C5 witness at the boundary map. -/
theorem c5_witness :
    run_checks [("FIN_MONITORING_POLL_INTERVAL_MS", "9999")] = Except.ok
      ([⟨"expert.mode", true, "stub"⟩,
        ⟨"info.mode", true, "stub"⟩,
        ⟨"expert.live_credentials", true, "stub mode"⟩,
        ⟨"info.live_credentials", true, "stub mode"⟩,
        ⟨"monitoring.poll_interval_ms", false, "9999 (autoEvaluate=true)"⟩],
       [monitoring_err]) ∧
    ((([⟨"expert.mode", true, "stub"⟩,
        ⟨"info.mode", true, "stub"⟩,
        ⟨"expert.live_credentials", true, "stub mode"⟩,
        ⟨"info.live_credentials", true, "stub mode"⟩,
        ⟨"monitoring.poll_interval_ms", false, "9999 (autoEvaluate=true)"⟩] : List CheckResult).getD 4 dflt).ok = true ↔
      (10000 : Int) ≤ monitoring_poll_of [("FIN_MONITORING_POLL_INTERVAL_MS", "9999")]) ∧
    pyInt (pyStrip "abc") = none ∧
    parse_int (some "abc") 300000 = 300000 :=
  ⟨rfl,
   (c5_monitoring_spec.1 [("FIN_MONITORING_POLL_INTERVAL_MS", "9999")] _ _ rfl).1,
   rfl,
   c5_monitoring_spec.2.2.1 "abc" 300000 rfl⟩

/-- C3: whenever `run_checks` returns normally, the
expert.live_credentials result is ok in live mode exactly when both the
key alias and the endpoint alias resolved to truthy values and the
resolved endpoint is a valid URL, a failing live check putting exactly
the expert credential error text in the error list; outside live mode
the result is recorded as ok with detail "stub mode" and the expert
credential error never appears.  The info.live_credentials check at
index 3 mirrors this with its own aliases and error text. -/
theorem c3_live_credentials_spec (env : Env) (res : List CheckResult) (errs : List String)
    (h : run_checks env = Except.ok (res, errs)) :
    ((expert_mode_of env = "live" →
        ((res.getD 2 dflt).ok = true ↔
          truthy (expert_key_of env) = true ∧ truthy (expert_endpoint_of env) = true ∧
          valid_url ((expert_endpoint_of env).getD "") = Except.ok true) ∧
        ((res.getD 2 dflt).ok = false → expert_live_err ∈ errs)) ∧
     (expert_mode_of env ≠ "live" →
        res.getD 2 dflt = ⟨"expert.live_credentials", true, "stub mode"⟩ ∧
        expert_live_err ∉ errs)) ∧
    ((info_mode_of env = "live" →
        ((res.getD 3 dflt).ok = true ↔
          truthy (info_key_of env) = true ∧ truthy (info_endpoint_of env) = true ∧
          valid_url ((info_endpoint_of env).getD "") = Except.ok true) ∧
        ((res.getD 3 dflt).ok = false → info_live_err ∈ errs)) ∧
     (info_mode_of env ≠ "live" →
        res.getD 3 dflt = ⟨"info.live_credentials", true, "stub mode"⟩ ∧
        info_live_err ∉ errs)) := by
  obtain ⟨r3, e3, r4, e4, h3, h4, hres, herrs⟩ := run_checks_shape env res errs h
  obtain ⟨n3, e3t, e3f, stub3, live3⟩ := cred_step_spec _ _ _ _ _ _ _ h3
  obtain ⟨n4, e4t, e4f, stub4, live4⟩ := cred_step_spec _ _ _ _ _ _ _ h4
  have he3 : e3 = if r3.ok = true then [] else [expert_live_err] := by
    cases hb : r3.ok
    · simp [e3f hb]
    · simp [e3t hb]
  have he4 : e4 = if r4.ok = true then [] else [info_live_err] := by
    cases hb : r4.ok
    · simp [e4f hb]
    · simp [e4t hb]
  subst hres herrs
  rw [he3, he4]
  refine ⟨⟨?_, ?_⟩, ?_, ?_⟩
  · intro hml
    constructor
    · exact (live3 hml).2
    · intro hok
      have hb : r3.ok = false := hok
      simp [hb, List.mem_append]
  · intro hmne
    obtain ⟨hok3, hdet3⟩ := stub3 hmne
    constructor
    · show r3 = ⟨"expert.live_credentials", true, "stub mode"⟩
      cases r3
      simp only [CheckResult.mk.injEq]
      exact ⟨n3, hok3, hdet3⟩
    · have q1 : expert_live_err ≠ invalid_expert_mode_err (expert_mode_of env) :=
        Ne.symm (invalid_expert_ne_expert_live _)
      have q2 : expert_live_err ≠ invalid_info_mode_err (info_mode_of env) :=
        Ne.symm (invalid_info_ne_expert_live _)
      have q3 : expert_live_err ≠ info_live_err := by decide
      have q4 : expert_live_err ≠ monitoring_err := by decide
      cases hm1 : mode_ok (expert_mode_of env) <;>
        cases hm2 : mode_ok (info_mode_of env) <;>
          cases hb4 : r4.ok <;>
            cases hmon : decide ((10000 : Int) ≤ monitoring_poll_of env) <;>
              simp [hok3, hm1, hm2, hb4, hmon, q1, q2, q3, q4]
  · intro hml
    constructor
    · exact (live4 hml).2
    · intro hok
      have hb : r4.ok = false := hok
      simp [hb, List.mem_append]
  · intro hmne
    obtain ⟨hok4, hdet4⟩ := stub4 hmne
    constructor
    · show r4 = ⟨"info.live_credentials", true, "stub mode"⟩
      cases r4
      simp only [CheckResult.mk.injEq]
      exact ⟨n4, hok4, hdet4⟩
    · have p1 : info_live_err ≠ invalid_expert_mode_err (expert_mode_of env) :=
        Ne.symm (invalid_expert_ne_info_live _)
      have p2 : info_live_err ≠ invalid_info_mode_err (info_mode_of env) :=
        Ne.symm (invalid_info_ne_info_live _)
      have p3 : info_live_err ≠ expert_live_err := by decide
      have p4 : info_live_err ≠ monitoring_err := by decide
      cases hm1 : mode_ok (expert_mode_of env) <;>
        cases hm2 : mode_ok (info_mode_of env) <;>
          cases hb3 : r3.ok <;>
            cases hmon : decide ((10000 : Int) ≤ monitoring_poll_of env) <;>
              simp [hok4, hm1, hm2, hb3, hmon, p1, p2, p3, p4]

/-- C3 witness at a live map with complete credentials. -/
theorem c3_witness :
    run_checks [("OPENFINCLAW_FIN_EXPERT_MODE", "live"),
      ("OPENFINCLAW_FIN_EXPERT_API_KEY", "k"),
      ("OPENFINCLAW_FIN_EXPERT_ENDPOINT", "https://api.example.com")] = Except.ok
      ([⟨"expert.mode", true, "live"⟩,
        ⟨"info.mode", true, "stub"⟩,
        ⟨"expert.live_credentials", true, "apiKey+endpoint required in live mode"⟩,
        ⟨"info.live_credentials", true, "stub mode"⟩,
        ⟨"monitoring.poll_interval_ms", true, "300000 (autoEvaluate=true)"⟩], []) ∧
    (expert_mode_of [("OPENFINCLAW_FIN_EXPERT_MODE", "live"),
        ("OPENFINCLAW_FIN_EXPERT_API_KEY", "k"),
        ("OPENFINCLAW_FIN_EXPERT_ENDPOINT", "https://api.example.com")] = "live" →
      ((([⟨"expert.mode", true, "live"⟩,
          ⟨"info.mode", true, "stub"⟩,
          ⟨"expert.live_credentials", true, "apiKey+endpoint required in live mode"⟩,
          ⟨"info.live_credentials", true, "stub mode"⟩,
          ⟨"monitoring.poll_interval_ms", true, "300000 (autoEvaluate=true)"⟩] : List CheckResult).getD 2 dflt).ok = true ↔
        truthy (expert_key_of [("OPENFINCLAW_FIN_EXPERT_MODE", "live"),
          ("OPENFINCLAW_FIN_EXPERT_API_KEY", "k"),
          ("OPENFINCLAW_FIN_EXPERT_ENDPOINT", "https://api.example.com")]) = true ∧
        truthy (expert_endpoint_of [("OPENFINCLAW_FIN_EXPERT_MODE", "live"),
          ("OPENFINCLAW_FIN_EXPERT_API_KEY", "k"),
          ("OPENFINCLAW_FIN_EXPERT_ENDPOINT", "https://api.example.com")]) = true ∧
        valid_url ((expert_endpoint_of [("OPENFINCLAW_FIN_EXPERT_MODE", "live"),
          ("OPENFINCLAW_FIN_EXPERT_API_KEY", "k"),
          ("OPENFINCLAW_FIN_EXPERT_ENDPOINT", "https://api.example.com")]).getD "") = Except.ok true) ∧
      ((([⟨"expert.mode", true, "live"⟩,
          ⟨"info.mode", true, "stub"⟩,
          ⟨"expert.live_credentials", true, "apiKey+endpoint required in live mode"⟩,
          ⟨"info.live_credentials", true, "stub mode"⟩,
          ⟨"monitoring.poll_interval_ms", true, "300000 (autoEvaluate=true)"⟩] : List CheckResult).getD 2 dflt).ok = false →
        expert_live_err ∈ ([] : List String))) :=
  ⟨rfl,
   (c3_live_credentials_spec [("OPENFINCLAW_FIN_EXPERT_MODE", "live"),
      ("OPENFINCLAW_FIN_EXPERT_API_KEY", "k"),
      ("OPENFINCLAW_FIN_EXPERT_ENDPOINT", "https://api.example.com")] _ [] rfl).1.1⟩

/-- C6 counterexample: both the namespaced key and the legacy key are
set, with different values, yet the legacy value wins because the
namespaced value is whitespace-only. -/
theorem c6_namespaced_does_not_win :
    pick [("OPENFINCLAW_FIN_EXPERT_MODE", " "), ("FIN_EXPERT_SDK_MODE", "live")]
      ["OPENFINCLAW_FIN_EXPERT_MODE", "FIN_EXPERT_SDK_MODE"] (some "stub") = some "live" ∧
    envGet [("OPENFINCLAW_FIN_EXPERT_MODE", " "), ("FIN_EXPERT_SDK_MODE", "live")]
      "OPENFINCLAW_FIN_EXPERT_MODE" = " " ∧
    envGet [("OPENFINCLAW_FIN_EXPERT_MODE", " "), ("FIN_EXPERT_SDK_MODE", "live")]
      "FIN_EXPERT_SDK_MODE" = "live" ∧
    (" " : String) ≠ "live" :=
  ⟨rfl, rfl, rfl, by decide⟩

/-- C6 (amended): `pick` checks the aliases in priority order and
returns the first whose trimmed value is non-empty, else the default
(the `find?` formulation below is the spec's wording); and the
namespaced alias wins over the legacy one whenever its own trimmed value
is non-empty. -/
theorem c6_alias_priority :
    (∀ env keys d, pick env keys d = pick_spec env keys d) ∧
    (∀ env ns leg d, pyStrip (envGet env ns) ≠ "" →
      pick env [ns, leg] d = some (pyStrip (envGet env ns))) := by
  constructor
  · intro env keys d
    induction keys with
    | nil => rfl
    | cons k rest ih =>
      cases hb : pyStrip (envGet env k) != "" with
      | true =>
        have hl : pick env (k :: rest) d = some (pyStrip (envGet env k)) := by
          simp [pick, hb]
        have hr : pick_spec env (k :: rest) d = some (pyStrip (envGet env k)) := by
          simp [pick_spec, List.find?, hb]
        rw [hl, hr]
      | false =>
        have hl : pick env (k :: rest) d = pick env rest d := by
          simp [pick, hb]
        have hr : pick_spec env (k :: rest) d = pick_spec env rest d := by
          simp [pick_spec, List.find?, hb]
        rw [hl, hr, ih]
  · intro env ns leg d hne
    have hb : (pyStrip (envGet env ns) != "") = true := by simpa using hne
    simp [pick, hb]

/-- C6 witness: with a non-empty namespaced value the namespaced alias
wins. -/
theorem c6_witness :
    pyStrip (envGet [("OPENFINCLAW_FIN_EXPERT_MODE", "live"), ("FIN_EXPERT_SDK_MODE", "stub")]
      "OPENFINCLAW_FIN_EXPERT_MODE") ≠ "" ∧
    pick [("OPENFINCLAW_FIN_EXPERT_MODE", "live"), ("FIN_EXPERT_SDK_MODE", "stub")]
      ["OPENFINCLAW_FIN_EXPERT_MODE", "FIN_EXPERT_SDK_MODE"] (some "stub") =
      some (pyStrip (envGet [("OPENFINCLAW_FIN_EXPERT_MODE", "live"), ("FIN_EXPERT_SDK_MODE", "stub")]
        "OPENFINCLAW_FIN_EXPERT_MODE")) :=
  ⟨by decide,
   c6_alias_priority.2 [("OPENFINCLAW_FIN_EXPERT_MODE", "live"), ("FIN_EXPERT_SDK_MODE", "stub")]
     "OPENFINCLAW_FIN_EXPERT_MODE" "FIN_EXPERT_SDK_MODE" (some "stub") (by decide)⟩

/-- C9 counterexample: the validity check does not return a verdict on
every string: on "http://[" it propagates
`ValueError("Invalid IPv6 URL")` instead of returning a boolean. -/
theorem c9_validity_check_raises :
    valid_url "http://[" = Except.error "Invalid IPv6 URL" := rfl

/-- C9 (amended): on every string on which the URL parse returns, the
validity predicate holds exactly when the parsed scheme and the parsed
authority are both non-empty, with no further restriction; "not-a-url"
is invalid, and a live-mode endpoint of "not-a-url" makes the
credentials check fail with the credential error. -/
theorem c9_url_validity :
    (∀ s p, urlsplit_sn s = Except.ok p →
      (valid_url s = Except.ok true ↔ (p.1 ≠ "" ∧ p.2 ≠ ""))) ∧
    valid_url "not-a-url" = Except.ok false ∧
    run_checks [("OPENFINCLAW_FIN_EXPERT_MODE", "live"),
      ("OPENFINCLAW_FIN_EXPERT_API_KEY", "k"),
      ("OPENFINCLAW_FIN_EXPERT_ENDPOINT", "not-a-url")] = Except.ok
      ([⟨"expert.mode", true, "live"⟩,
        ⟨"info.mode", true, "stub"⟩,
        ⟨"expert.live_credentials", false, "apiKey+endpoint required in live mode"⟩,
        ⟨"info.live_credentials", true, "stub mode"⟩,
        ⟨"monitoring.poll_interval_ms", true, "300000 (autoEvaluate=true)"⟩],
       [expert_live_err]) := by
  refine ⟨?_, rfl, rfl⟩
  intro s p hp
  unfold valid_url
  rw [hp]
  simp [Bool.and_eq_true, decide_eq_true_eq]

/-- C9 witness at a well-formed URL. -/
theorem c9_witness :
    urlsplit_sn "https://api.example.com" = Except.ok ("https", "api.example.com") ∧
    (valid_url "https://api.example.com" = Except.ok true ↔
      (("https", "api.example.com").1 ≠ "" ∧ ("https", "api.example.com").2 ≠ "")) :=
  ⟨rfl, c9_url_validity.1 "https://api.example.com" ("https", "api.example.com") rfl⟩
